import Mathlib

/-!
# Verification of the SlicerNNUnet API segmentation logic

A shallow embedding of `SlicerNNUNetLib/ApiSegmentationLogic.py` and the
relevant parts of `SlicerNNUNetLib/Widget.py`.

The Python class `ApiSegmentationLogic` is modelled as a state record
(`ApiLogicState`) together with pure functions for each method.  External
effects (host calls to `slicer`, the HTTP transport `requests.post`, and
file-system operations) are modelled by an environment record whose fields
are `Except String _` values: `.ok` means the call succeeds, `.error e`
means the call raises a Python exception whose `str` is `e`.  The three
`Signal` objects (`inferenceFinished`, `errorOccurred`, `progressInfo`)
are modelled as an emitted event trace, and HTTP traffic as a list of the
URLs POSTed to.
-/

/-- An HTTP response as seen through the `requests` library:
`status_code`, `headers` (an association list, `dict`-like with unique
keys not needed for `get`), the raw body `content` and the decoded body
`text`. -/
structure Response where
  status_code : Nat
  headers : List (String × String)
  content : String
  text : String
deriving Repr, DecidableEq

/-- Python `dict.get`: first matching key, `None` when absent. -/
def headersGet (hs : List (String × String)) (k : String) : Option String :=
  match hs with
  | [] => none
  | (k', v) :: rest => if k' = k then some v else headersGet rest k

/-- Python truthiness of an optional string: `None` and `""` are falsy. -/
def pyTruthy (s : Option String) : Bool :=
  match s with
  | none => false
  | some x => x ≠ ""

/-- Python `str(...)` of an optional string: `None` prints as `"None"`
inside an f-string. -/
def pyStr (s : Option String) : String :=
  match s with
  | none => "None"
  | some x => x

/-- The three signals of the logic, as trace events. -/
inductive Event where
  | finished
  | error (msg : String)
  | progress (msg : String)
deriving Repr, DecidableEq

def Event.isFinished : Event → Bool
  | .finished => true
  | _ => false

def Event.isError : Event → Bool
  | .error _ => true
  | _ => false

/-- Number of `inferenceFinished` firings in a trace. -/
def countFinished (evs : List Event) : Nat :=
  (evs.filter Event.isFinished).length

/-- Number of `errorOccurred` firings in a trace. -/
def countError (evs : List Event) : Nat :=
  (evs.filter Event.isError).length

/-- The mutable attributes of `ApiSegmentationLogic`, plus the one file of
its temporary workspace the code ever touches
(`{tmpDir}/output/segmentation.nii.gz`, `none` when the file does not
exist, `some b` when it exists with contents `b`). -/
structure ApiLogicState where
  apiBaseUrl : String
  currentSegmentationNode : Option String
  currentVolumeNode : Option String
  currentFileId : Option String
  outputFile : Option String
deriving Repr, DecidableEq

/-- Attribute values set by `__init__`. -/
def ApiLogicState.init : ApiLogicState :=
  { apiBaseUrl := ""
    currentSegmentationNode := none
    currentVolumeNode := none
    currentFileId := none
    outputFile := none }

/-- `setApiUrl`: stores `apiUrl.rstrip("/")`. -/
def setApiUrl (st : ApiLogicState) (apiUrl : String) : ApiLogicState :=
  { st with apiBaseUrl := ⟨(apiUrl.data.reverse.dropWhile (· = '/')).reverse⟩ }

/-- `getApiUrl`. -/
def getApiUrl (st : ApiLogicState) : String :=
  st.apiBaseUrl

/-- Whether a string ends in a `/` character. -/
def hasTrailingSlash (s : String) : Bool :=
  s.data.getLast? == some '/'

/-- `getPredictUrl`: `f"{self._apiBaseUrl}/predict"`. -/
def getPredictUrl (st : ApiLogicState) : String :=
  st.apiBaseUrl ++ "/predict"

/-- `getUploadUrl`: `f"{self._apiBaseUrl}/upload_correction/{file_id}"`. -/
def getUploadUrl (st : ApiLogicState) (file_id : String) : String :=
  st.apiBaseUrl ++ "/upload_correction/" ++ file_id

/-- Outcomes of the external calls made inside `startSegmentation`, in
execution order.  Each `.error e` models that call raising an exception
with message `e`; `postPredict` additionally carries the `Response` on
success. -/
structure StartEnv where
  exportNode : Except String Unit
  postPredict : Except String Response
  unlinkTemp : Except String Unit
  mkdirOut : Except String Unit
  writeOut : Except String Unit

/-- Result of a `startSegmentation` run: the state after the call, the
signal trace in emission order, and the URLs an HTTP POST was issued to. -/
structure StartResult where
  state : ApiLogicState
  events : List Event
  requests : List String
deriving Repr, DecidableEq

/-- `startSegmentation(volumeNode)`.  Mirrors the Python body: the missing
URL fast path, then the `try` block whose external calls are resolved by
`env`; any exception inside the `try` is caught and reported as
`"Error during API communication: " ++ e`. -/
def startSegmentation (st : ApiLogicState) (volumeNode : String)
    (env : StartEnv) : StartResult :=
  if st.apiBaseUrl = "" then
    { state := st, events := [.error "API URL is not configured."], requests := [] }
  else
    let st := { st with currentVolumeNode := some volumeNode }
    let predict_url := getPredictUrl st
    let ev0 : List Event := [.progress ("Sending volume to API: " ++ predict_url)]
    let caught := fun (evs : List Event) (reqs : List String) (e : String) =>
      { state := st, events := evs ++ [.error ("Error during API communication: " ++ e)],
        requests := reqs : StartResult }
    match env.exportNode with
    | .error e => caught ev0 [] e
    | .ok _ =>
      let ev1 := ev0 ++ [.progress "Uploading volume to API..."]
      match env.postPredict with
      | .error e => caught ev1 [predict_url] e
      | .ok response =>
        match env.unlinkTemp with
        | .error e => caught ev1 [predict_url] e
        | .ok _ =>
          if response.status_code ≠ 200 then
            { state := st
              events := ev1 ++ [.error ("API returned error: " ++
                toString response.status_code ++ " - " ++ response.text)]
              requests := [predict_url] }
          else
            let st := { st with currentFileId := headersGet response.headers "X-File-ID" }
            let ev2 := ev1 ++
              (if pyTruthy st.currentFileId then []
               else [.progress "Warning: No file ID received from API"])
            match env.mkdirOut with
            | .error e => { caught ev2 [predict_url] e with state := st }
            | .ok _ =>
              match env.writeOut with
              | .error e => { caught ev2 [predict_url] e with state := st }
              | .ok _ =>
                { state := { st with outputFile := some response.content }
                  events := ev2 ++
                    [.progress ("Segmentation received from API with ID: " ++
                      pyStr st.currentFileId), .finished]
                  requests := [predict_url] }

/-- Outcomes of the external calls made inside `uploadSegmentation`, in
execution order.  `exportSteps` collapses the host-side labelmap
export sequence (AddNewNodeByClass, ExportAllSegmentsToLabelmapNode,
exportNode, RemoveNode), any of which may raise. -/
structure UploadEnv where
  exportSteps : Except String Unit
  postUpload : Except String Response
  unlinkTemp : Except String Unit

/-- Result of an `uploadSegmentation` run: returned boolean, state after
the call, signal trace, POSTed URLs. -/
structure UploadResult where
  success : Bool
  state : ApiLogicState
  events : List Event
  requests : List String
deriving Repr, DecidableEq

/-- `uploadSegmentation(segmentationNode)`.  Mirrors the Python body:
fast paths for a missing URL and a missing file id, then the `try` block;
any exception is caught, reported as
`"Error during upload: " ++ e`, and `False` is returned. -/
def uploadSegmentation (st : ApiLogicState) (env : UploadEnv) : UploadResult :=
  if st.apiBaseUrl = "" then
    { success := false, state := st,
      events := [.error "API URL is not configured."], requests := [] }
  else if ¬ pyTruthy st.currentFileId then
    { success := false, state := st,
      events := [.error "No file ID available. Please run inference first."],
      requests := [] }
  else
    let upload_url := getUploadUrl st (pyStr st.currentFileId)
    let ev0 : List Event :=
      [.progress ("Uploading corrected segmentation to: " ++ upload_url)]
    let caught := fun (evs : List Event) (reqs : List String) (e : String) =>
      { success := false, state := st,
        events := evs ++ [.error ("Error during upload: " ++ e)],
        requests := reqs : UploadResult }
    match env.exportSteps with
    | .error e => caught ev0 [] e
    | .ok _ =>
      let ev1 := ev0 ++ [.progress "Uploading segmentation to API..."]
      match env.postUpload with
      | .error e => caught ev1 [upload_url] e
      | .ok response =>
        match env.unlinkTemp with
        | .error e => caught ev1 [upload_url] e
        | .ok _ =>
          if response.status_code ≠ 200 then
            { success := false, state := st
              events := ev1 ++ [.error ("API returned error: " ++
                toString response.status_code ++ " - " ++ response.text)]
              requests := [upload_url] }
          else
            { success := true, state := st
              events := ev1 ++ [.progress
                ("Segmentation successfully uploaded to API with ID: " ++
                  pyStr st.currentFileId)]
              requests := [upload_url] }

/-- Outcomes of the external calls inside `loadSegmentation`, in
execution order: `loadLabelVolume`, the AddNewNodeByClass /
ImportLabelmapToSegmentationNode / RemoveNode sequence collapsed into
`importSteps`. -/
structure LoadEnv where
  loadLabelVolume : Except String Unit
  importSteps : Except String Unit

/-- `loadSegmentation()`.  Returns `.ok` with the new state and the
created segmentation node name, or `.error msg` for the raised
`RuntimeError`; every failure inside the `try` (including the explicit
missing-file `RuntimeError`) is re-raised wrapped as
`"Failed to load segmentation: " ++ e`.  `SetName` on the current volume
raises Python's `AttributeError` when `_currentVolumeNode` is `None`. -/
def loadSegmentation (st : ApiLogicState) (env : LoadEnv) :
    Except String (ApiLogicState × String) :=
  let wrap := fun (e : String) =>
    Except.error ("Failed to load segmentation: " ++ e)
  match st.outputFile with
  | none => wrap "Segmentation file not found. API segmentation may have failed."
  | some _ =>
    match env.loadLabelVolume with
    | .error e => wrap e
    | .ok _ =>
      match st.currentVolumeNode with
      | none => wrap "'NoneType' object has no attribute 'GetName'"
      | some volName =>
        let segName := volName ++ "_ApiSegmentation"
        match env.importSteps with
        | .error e => wrap e
        | .ok _ =>
          .ok ({ st with currentSegmentationNode := some segName }, segName)

/-- `getCurrentSegmentation()`. -/
def getCurrentSegmentation (st : ApiLogicState) : Option String :=
  st.currentSegmentationNode

/-! ## Widget (`SlicerNNUNetLib/Widget.py`), the parts the claims need -/

/-- The widget attributes and UI flags relevant to the stop / finished
interaction: the `isStopping` reentrancy guard, the apply / stop button
visibility toggled by `_setApplyVisible`, the counts of modal dialogs
shown by `_reportFinished` (`infoDisplay`, the success dialog) and
`_reportError` (`errorDisplay`), the `_doShowErrorWindows` flag, and the
log text. -/
structure WidgetState where
  isStopping : Bool
  applyVisible : Bool
  stopVisible : Bool
  doShowErrorWindows : Bool
  infoDialogs : Nat
  errorDialogs : Nat
  log : List String
deriving Repr, DecidableEq

/-- `onProgressInfo`: appends the message to the log text edit. -/
def onProgressInfo (w : WidgetState) (msg : String) : WidgetState :=
  { w with log := w.log ++ [msg] }

/-- `_reportError`: logs, then shows an error dialog when
`_doShowErrorWindows` is set. -/
def reportError (w : WidgetState) (msg : String) : WidgetState :=
  let w := onProgressInfo w msg
  if w.doShowErrorWindows then { w with errorDialogs := w.errorDialogs + 1 } else w

/-- `_reportFinished`: logs a separator and the message, then shows the
success (info) dialog when `_doShowErrorWindows` is set.  Also returns
whether the success dialog was shown by this call. -/
def reportFinished (w : WidgetState) (msg : String) : WidgetState × Bool :=
  let w := onProgressInfo w (String.mk (List.replicate 80 '*'))
  let w := onProgressInfo w msg
  if w.doShowErrorWindows then
    ({ w with infoDialogs := w.infoDialogs + 1 }, true)
  else (w, false)

/-- `_setApplyVisible`: apply button visible iff `isVisible`, stop button
visible iff not. -/
def setApplyVisible (w : WidgetState) (isVisible : Bool) : WidgetState :=
  { w with applyVisible := isVisible, stopVisible := !isVisible }

/-- `onInferenceFinished`.  `loadOutcome` resolves
`self.logic.loadSegmentation()` (and the subsequent `SetName`):
`.error e` models the `RuntimeError` path.  Returns the new widget
state, whether `loadSegmentation` was invoked, and whether the success
dialog was shown. -/
def onInferenceFinished (w : WidgetState) (loadOutcome : Except String Unit) :
    WidgetState × Bool × Bool :=
  if w.isStopping then
    (setApplyVisible w true, false, false)
  else
    let w := onProgressInfo w "Loading inference results..."
    match loadOutcome with
    | .ok _ =>
      let (w, shown) := reportFinished w "Inference ended successfully."
      (setApplyVisible w true, true, shown)
    | .error e =>
      let w := reportError w ("Inference ended in error:\n" ++ e)
      (setApplyVisible w true, true, false)

/-- `onStopClicked`, with the active logic being the API logic (whose
`stopSegmentation` and `waitForSegmentationFinished` are `pass`).
`pendingFinished` says whether a `inferenceFinished` signal delivery is
pending in the event queue pumped by `slicer.app.processEvents()`;
`loadOutcome` resolves the load should `onInferenceFinished` attempt it.
Returns the final widget state, whether the delivery invoked
`loadSegmentation`, and whether it showed the success dialog. -/
def onStopClicked (w : WidgetState) (pendingFinished : Bool)
    (loadOutcome : Except String Unit) : WidgetState × Bool × Bool :=
  let w := { w with isStopping := true }
  let (w, didLoad, didShow) :=
    if pendingFinished then onInferenceFinished w loadOutcome
    else (w, false, false)
  let w := { w with isStopping := false }
  (setApplyVisible w true, didLoad, didShow)

/-! ## Theorems -/

theorem setApiUrl_no_trailing_slash (st : ApiLogicState) (url : String) :
    hasTrailingSlash (setApiUrl st url).apiBaseUrl = false := by
  simp only [setApiUrl, hasTrailingSlash]
  rw [List.getLast?_reverse]
  cases h : (url.data.reverse.dropWhile (fun c => decide (c = '/'))).head? with
  | none => simp [h]
  | some a =>
    have ha := List.head?_dropWhile_not (fun c => decide (c = '/')) url.data.reverse
    rw [h] at ha
    simp at ha
    simp [h, ha]

/-- C5: for every base URL ending in one or more trailing slashes, after
`setApiUrl(url)` the stored base URL has no trailing slash, the predict
URL has no double slash immediately before `/predict` (no `//predict`
suffix), and the upload URL is the stored base followed directly by
`/upload_correction/{fid}` (so no double slash precedes
`/upload_correction` either). -/
theorem setApiUrl_normalizes (st : ApiLogicState) (url fid : String)
    (_h : hasTrailingSlash url = true) :
    hasTrailingSlash (setApiUrl st url).apiBaseUrl = false ∧
    ¬ ("//predict".data <:+ (getPredictUrl (setApiUrl st url)).data) ∧
    getUploadUrl (setApiUrl st url) fid =
      (setApiUrl st url).apiBaseUrl ++ "/upload_correction/" ++ fid := by
  refine ⟨setApiUrl_no_trailing_slash st url, ?_, rfl⟩
  intro hsuf
  obtain ⟨t, ht⟩ := hsuf
  have hdata : (getPredictUrl (setApiUrl st url)).data =
      (setApiUrl st url).apiBaseUrl.data ++ "/predict".data :=
    String.data_append _ _
  rw [hdata] at ht
  have hsplit : "//predict".data = ['/'] ++ "/predict".data := rfl
  rw [hsplit, ← List.append_assoc] at ht
  have hb : t ++ ['/'] = (setApiUrl st url).apiBaseUrl.data :=
    List.append_cancel_right ht
  have hlast : (setApiUrl st url).apiBaseUrl.data.getLast? = some '/' := by
    rw [← hb]; exact List.getLast?_concat t
  have hnts := setApiUrl_no_trailing_slash st url
  simp [hasTrailingSlash, hlast] at hnts

theorem setApiUrl_normalizes_witness :
    hasTrailingSlash (setApiUrl ApiLogicState.init "http://host///").apiBaseUrl = false ∧
    ¬ ("//predict".data <:+ (getPredictUrl (setApiUrl ApiLogicState.init "http://host///")).data) ∧
    getUploadUrl (setApiUrl ApiLogicState.init "http://host///") "abc123" =
      (setApiUrl ApiLogicState.init "http://host///").apiBaseUrl ++
        "/upload_correction/" ++ "abc123" :=
  setApiUrl_normalizes ApiLogicState.init "http://host///" "abc123" (by decide)

/-- C2: `startSegmentation` with no URL configured issues no HTTP
request, raises the error signal exactly once, raises no finished
signal, and leaves the whole logic state (file id, output file, volume
reference) unchanged.  It returns normally: in this embedding
`startSegmentation` is a total function, matching the Python fast path
that `return`s without raising. -/
theorem startSegmentation_noUrl (st : ApiLogicState) (v : String) (env : StartEnv)
    (h : st.apiBaseUrl = "") :
    (startSegmentation st v env).requests = [] ∧
    countError (startSegmentation st v env).events = 1 ∧
    countFinished (startSegmentation st v env).events = 0 ∧
    (startSegmentation st v env).state = st := by
  simp [startSegmentation, h, countError, countFinished, Event.isError, Event.isFinished]

theorem startSegmentation_noUrl_witness :
    (startSegmentation ApiLogicState.init "vol"
      ⟨.ok (), .ok ⟨200, [], "B", "B"⟩, .ok (), .ok (), .ok ()⟩).requests = [] ∧
    countError (startSegmentation ApiLogicState.init "vol"
      ⟨.ok (), .ok ⟨200, [], "B", "B"⟩, .ok (), .ok (), .ok ()⟩).events = 1 ∧
    countFinished (startSegmentation ApiLogicState.init "vol"
      ⟨.ok (), .ok ⟨200, [], "B", "B"⟩, .ok (), .ok (), .ok ()⟩).events = 0 ∧
    (startSegmentation ApiLogicState.init "vol"
      ⟨.ok (), .ok ⟨200, [], "B", "B"⟩, .ok (), .ok (), .ok ()⟩).state = ApiLogicState.init :=
  startSegmentation_noUrl ApiLogicState.init "vol" _ rfl

/-- C4: `uploadSegmentation` with no API URL configured, or with no
truthy stored file id from a prior successful predict call, issues no
HTTP request, returns `False`, and raises the error signal (exactly
once). -/
theorem uploadSegmentation_failfast (st : ApiLogicState) (env : UploadEnv)
    (h : st.apiBaseUrl = "" ∨ pyTruthy st.currentFileId = false) :
    (uploadSegmentation st env).requests = [] ∧
    (uploadSegmentation st env).success = false ∧
    countError (uploadSegmentation st env).events = 1 := by
  rcases h with h | h
  · simp [uploadSegmentation, h, countError, Event.isError]
  · by_cases hb : st.apiBaseUrl = ""
    · simp [uploadSegmentation, hb, countError, Event.isError]
    · simp [uploadSegmentation, hb, h, countError, Event.isError]

theorem uploadSegmentation_failfast_witness :
    (uploadSegmentation ApiLogicState.init ⟨.ok (), .ok ⟨200, [], "", ""⟩, .ok ()⟩).requests = [] ∧
    (uploadSegmentation ApiLogicState.init ⟨.ok (), .ok ⟨200, [], "", ""⟩, .ok ()⟩).success = false ∧
    countError (uploadSegmentation ApiLogicState.init
      ⟨.ok (), .ok ⟨200, [], "", ""⟩, .ok ()⟩).events = 1 :=
  uploadSegmentation_failfast ApiLogicState.init _ (Or.inl rfl)

/-- C1: for a predict response of status 200 with header
`X-File-ID: abc123` and body `B`, after `startSegmentation` (with all
external calls succeeding) the output file `output/segmentation.nii.gz`
exists with contents `B`, the stored file id is `abc123` so a subsequent
`getUploadUrl` call resolves to `{base}/upload_correction/abc123`, the
finished signal fired exactly once, and the error signal did not fire. -/
theorem startSegmentation_success (st : ApiLogicState) (v B t : String)
    (h : st.apiBaseUrl ≠ "") :
    let r := startSegmentation st v
      ⟨.ok (), .ok ⟨200, [("X-File-ID", "abc123")], B, t⟩, .ok (), .ok (), .ok ()⟩
    r.state.outputFile = some B ∧
    r.state.currentFileId = some "abc123" ∧
    getUploadUrl r.state "abc123" = st.apiBaseUrl ++ "/upload_correction/abc123" ∧
    countFinished r.events = 1 ∧
    countError r.events = 0 := by
  refine ⟨?_, ?_, ?_, ?_, ?_⟩ <;>
    simp [startSegmentation, h, headersGet, pyTruthy, pyStr, getUploadUrl,
      countFinished, countError, Event.isFinished, Event.isError]
  rw [String.append_assoc]; rfl

theorem startSegmentation_success_witness :
    let r := startSegmentation { ApiLogicState.init with apiBaseUrl := "http://host" } "vol"
      ⟨.ok (), .ok ⟨200, [("X-File-ID", "abc123")], "B", "B"⟩, .ok (), .ok (), .ok ()⟩
    r.state.outputFile = some "B" ∧
    r.state.currentFileId = some "abc123" ∧
    getUploadUrl r.state "abc123" = "http://host" ++ "/upload_correction/abc123" ∧
    countFinished r.events = 1 ∧
    countError r.events = 0 :=
  startSegmentation_success { ApiLogicState.init with apiBaseUrl := "http://host" }
    "vol" "B" "B" (by decide)

/-- C3: for a predict response with non-2xx status, `startSegmentation`
(whatever the later mkdir / write outcomes would have been) raises the
error signal exactly once with a message containing both the status code
and the body text, raises no finished signal, issues exactly one request
(no retry), and leaves the output file untouched. -/
theorem startSegmentation_non2xx (st : ApiLogicState) (v : String) (resp : Response)
    (m w : Except String Unit) (h : st.apiBaseUrl ≠ "")
    (hs : resp.status_code < 200 ∨ 300 ≤ resp.status_code) :
    let r := startSegmentation st v ⟨.ok (), .ok resp, .ok (), m, w⟩
    let msg := "API returned error: " ++ toString resp.status_code ++ " - " ++ resp.text
    r.events.filter Event.isError = [.error msg] ∧
    countError r.events = 1 ∧
    countFinished r.events = 0 ∧
    (toString resp.status_code).data <:+: msg.data ∧
    resp.text.data <:+: msg.data ∧
    r.state.outputFile = st.outputFile ∧
    r.requests = [getPredictUrl st] := by
  have hne : resp.status_code ≠ 200 := by omega
  refine ⟨?_, ?_, ?_, ?_, ?_, ?_, ?_⟩
  · simp [startSegmentation, h, hne, Event.isError]
  · simp [startSegmentation, h, hne, countError, Event.isError]
  · simp [startSegmentation, h, hne, countFinished, Event.isFinished]
  · exact ⟨"API returned error: ".data, " - ".data ++ resp.text.data, by
      simp [String.data_append, List.append_assoc]⟩
  · exact ⟨"API returned error: ".data ++ (toString resp.status_code).data ++ " - ".data,
      [], by simp [String.data_append, List.append_assoc]⟩
  · simp [startSegmentation, h, hne]
  · simp [startSegmentation, h, hne, getPredictUrl]

theorem startSegmentation_non2xx_witness :
    let r := startSegmentation { ApiLogicState.init with apiBaseUrl := "http://host" } "vol"
      ⟨.ok (), .ok ⟨500, [], "boom", "boom"⟩, .ok (), .ok (), .ok ()⟩
    let msg := "API returned error: " ++ toString (500 : Nat) ++ " - " ++ "boom"
    r.events.filter Event.isError = [.error msg] ∧
    countError r.events = 1 ∧
    countFinished r.events = 0 ∧
    (toString (500 : Nat)).data <:+: msg.data ∧
    "boom".data <:+: msg.data ∧
    r.state.outputFile = ApiLogicState.init.outputFile ∧
    r.requests = [getPredictUrl { ApiLogicState.init with apiBaseUrl := "http://host" }] :=
  startSegmentation_non2xx { ApiLogicState.init with apiBaseUrl := "http://host" }
    "vol" ⟨500, [], "boom", "boom"⟩ (.ok ()) (.ok ()) (by decide) (by decide)

/-- The message of the first exception raised by the external calls of
`startSegmentation`'s `try` block, along its execution order
(export, POST, unlink, then — only on a 200 status — mkdir and write);
`none` when no exception is raised. -/
def firstExc (env : StartEnv) : Option String :=
  match env.exportNode with
  | .error e => some e
  | .ok _ =>
    match env.postPredict with
    | .error e => some e
    | .ok resp =>
      match env.unlinkTemp with
      | .error e => some e
      | .ok _ =>
        if resp.status_code ≠ 200 then none
        else
          match env.mkdirOut with
          | .error e => some e
          | .ok _ =>
            match env.writeOut with
            | .error e => some e
            | .ok _ => none

/-- C6: whenever any external call of `startSegmentation`'s sequence
raises an exception `e` (volume export, HTTP request, temp-file unlink,
output mkdir or write), the call is caught inside the method — in this
embedding `startSegmentation` is a total function, so nothing
propagates — and reported through the error signal (exactly once, with
the exception message), and no finished signal fires. -/
theorem startSegmentation_catches (st : ApiLogicState) (v : String) (env : StartEnv)
    (e : String) (h : st.apiBaseUrl ≠ "") (hexc : firstExc env = some e) :
    Event.error ("Error during API communication: " ++ e) ∈ (startSegmentation st v env).events ∧
    countError (startSegmentation st v env).events = 1 ∧
    countFinished (startSegmentation st v env).events = 0 := by
  obtain ⟨e1, e2, e3, e4, e5⟩ := env
  cases e1 with
  | error e' =>
    simp [firstExc] at hexc
    subst hexc
    simp [startSegmentation, h, countError, countFinished, Event.isError, Event.isFinished]
  | ok u1 =>
    cases e2 with
    | error e' =>
      simp [firstExc] at hexc
      subst hexc
      simp [startSegmentation, h, countError, countFinished, Event.isError, Event.isFinished]
    | ok resp =>
      cases e3 with
      | error e' =>
        simp [firstExc] at hexc
        subst hexc
        simp [startSegmentation, h, countError, countFinished, Event.isError, Event.isFinished]
      | ok u3 =>
        by_cases hs : resp.status_code = 200
        · simp only [firstExc, hs] at hexc
          by_cases hid : pyTruthy (headersGet resp.headers "X-File-ID") = true
          · cases e4 with
            | error e' =>
              simp at hexc
              subst hexc
              simp [startSegmentation, h, hs, hid, countError, countFinished,
                Event.isError, Event.isFinished]
            | ok u4 =>
              cases e5 with
              | error e' =>
                simp at hexc
                subst hexc
                simp [startSegmentation, h, hs, hid, countError, countFinished,
                  Event.isError, Event.isFinished]
              | ok u5 => simp at hexc
          · cases e4 with
            | error e' =>
              simp at hexc
              subst hexc
              simp [startSegmentation, h, hs, hid, countError, countFinished,
                Event.isError, Event.isFinished]
            | ok u4 =>
              cases e5 with
              | error e' =>
                simp at hexc
                subst hexc
                simp [startSegmentation, h, hs, hid, countError, countFinished,
                  Event.isError, Event.isFinished]
              | ok u5 => simp at hexc
        · simp [firstExc, hs] at hexc

theorem startSegmentation_catches_witness :
    Event.error ("Error during API communication: " ++ "connection refused") ∈
      (startSegmentation { ApiLogicState.init with apiBaseUrl := "http://host" } "vol"
        ⟨.ok (), .error "connection refused", .ok (), .ok (), .ok ()⟩).events ∧
    countError (startSegmentation { ApiLogicState.init with apiBaseUrl := "http://host" } "vol"
        ⟨.ok (), .error "connection refused", .ok (), .ok (), .ok ()⟩).events = 1 ∧
    countFinished (startSegmentation { ApiLogicState.init with apiBaseUrl := "http://host" } "vol"
        ⟨.ok (), .error "connection refused", .ok (), .ok (), .ok ()⟩).events = 0 :=
  startSegmentation_catches { ApiLogicState.init with apiBaseUrl := "http://host" } "vol"
    ⟨.ok (), .error "connection refused", .ok (), .ok (), .ok ()⟩
    "connection refused" (by decide) rfl

/-- Whether a `startSegmentation` run fails before the `X-File-ID`
response header is read: an exception in export, POST or unlink, or a
non-200 status. -/
def failsBeforeFileId (env : StartEnv) : Bool :=
  match env.exportNode with
  | .error _ => true
  | .ok _ =>
    match env.postPredict with
    | .error _ => true
    | .ok resp =>
      match env.unlinkTemp with
      | .error _ => true
      | .ok _ => resp.status_code != 200

/-- C10: a `startSegmentation` call with a configured URL that fails
before the response header is read (non-200 response, or an earlier
exception) leaves the stored job file id unchanged — `getUploadUrl`
still targets the old job for every file id — while the stored
current-volume reference has already been overwritten with the new
volume. -/
theorem startSegmentation_frame (st : ApiLogicState) (v : String) (env : StartEnv)
    (h : st.apiBaseUrl ≠ "") (hf : failsBeforeFileId env = true) :
    (startSegmentation st v env).state.currentFileId = st.currentFileId ∧
    (startSegmentation st v env).state.currentVolumeNode = some v ∧
    (startSegmentation st v env).state.apiBaseUrl = st.apiBaseUrl ∧
    ∀ fid, getUploadUrl (startSegmentation st v env).state fid = getUploadUrl st fid := by
  obtain ⟨e1, e2, e3, e4, e5⟩ := env
  cases e1 with
  | error e' => simp [startSegmentation, h, getUploadUrl]
  | ok u1 =>
    cases e2 with
    | error e' => simp [startSegmentation, h, getUploadUrl]
    | ok resp =>
      cases e3 with
      | error e' => simp [startSegmentation, h, getUploadUrl]
      | ok u3 =>
        have hs : resp.status_code ≠ 200 := by
          simpa [failsBeforeFileId] using hf
        simp [startSegmentation, h, hs, getUploadUrl]

theorem startSegmentation_frame_witness :
    let st0 : ApiLogicState :=
      { ApiLogicState.init with apiBaseUrl := "http://host", currentFileId := some "old" }
    let r := startSegmentation st0 "vol"
      ⟨.ok (), .ok ⟨500, [], "boom", "boom"⟩, .ok (), .ok (), .ok ()⟩
    r.state.currentFileId = st0.currentFileId ∧
    r.state.currentVolumeNode = some "vol" ∧
    r.state.apiBaseUrl = st0.apiBaseUrl ∧
    ∀ fid, getUploadUrl r.state fid = getUploadUrl st0 fid :=
  startSegmentation_frame
    { ApiLogicState.init with apiBaseUrl := "http://host", currentFileId := some "old" } "vol"
    ⟨.ok (), .ok ⟨500, [], "boom", "boom"⟩, .ok (), .ok (), .ok ()⟩ (by decide) rfl

/-- C7: `loadSegmentation` called when the output file does not exist
(before any successful predict) throws, and the thrown message names the
missing-file condition; and every failure it reports is a thrown error
wrapped in a message naming the underlying cause
(`"Failed to load segmentation: " ++ cause`). -/
theorem loadSegmentation_error_spec :
    (∀ (st : ApiLogicState) (env : LoadEnv), st.outputFile = none →
      loadSegmentation st env = .error
        "Failed to load segmentation: Segmentation file not found. API segmentation may have failed.") ∧
    (∀ (st : ApiLogicState) (env : LoadEnv) (msg : String),
      loadSegmentation st env = .error msg →
      ∃ cause, msg = "Failed to load segmentation: " ++ cause) := by
  constructor
  · intro st env h
    unfold loadSegmentation
    rw [h]
    rfl
  · intro st env msg h
    obtain ⟨lv, is⟩ := env
    unfold loadSegmentation at h
    rcases ho : st.outputFile with _ | b <;> rw [ho] at h
    · have h2 : Except.error (ε := String) (α := ApiLogicState × String)
          ("Failed to load segmentation: " ++
            "Segmentation file not found. API segmentation may have failed.") =
          Except.error msg := h
      injection h2 with h3
      exact ⟨_, h3.symm⟩
    · cases lv with
      | error e =>
        have h2 : Except.error (ε := String) (α := ApiLogicState × String)
            ("Failed to load segmentation: " ++ e) = Except.error msg := h
        injection h2 with h3
        exact ⟨e, h3.symm⟩
      | ok u =>
        rcases hv : st.currentVolumeNode with _ | volName <;> rw [hv] at h
        · have h2 : Except.error (ε := String) (α := ApiLogicState × String)
              ("Failed to load segmentation: " ++
                "'NoneType' object has no attribute 'GetName'") =
              Except.error msg := h
          injection h2 with h3
          exact ⟨_, h3.symm⟩
        · cases is with
          | error e =>
            have h2 : Except.error (ε := String) (α := ApiLogicState × String)
                ("Failed to load segmentation: " ++ e) = Except.error msg := h
            injection h2 with h3
            exact ⟨e, h3.symm⟩
          | ok u2 =>
            exact absurd h (by simp)

theorem loadSegmentation_error_spec_witness :
    loadSegmentation ApiLogicState.init ⟨.ok (), .ok ()⟩ = .error
      "Failed to load segmentation: Segmentation file not found. API segmentation may have failed." :=
  loadSegmentation_error_spec.1 ApiLogicState.init ⟨.ok (), .ok ()⟩ rfl

/-- C8: for a predict response of status 200 whose headers lack
`X-File-ID`, `startSegmentation` still writes the output file and raises
the finished signal (with only a progress warning and no error signal,
and a `None` stored file id), and every subsequent `uploadSegmentation`
call then returns `False` with no HTTP request and an error signal
saying no file id is available. -/
theorem startSegmentation_missing_header (st : ApiLogicState) (v : String)
    (resp : Response) (uenv : UploadEnv)
    (h : st.apiBaseUrl ≠ "") (hs : resp.status_code = 200)
    (hh : headersGet resp.headers "X-File-ID" = none) :
    let r := startSegmentation st v ⟨.ok (), .ok resp, .ok (), .ok (), .ok ()⟩
    r.state.outputFile = some resp.content ∧
    countFinished r.events = 1 ∧
    Event.progress "Warning: No file ID received from API" ∈ r.events ∧
    countError r.events = 0 ∧
    r.state.currentFileId = none ∧
    (uploadSegmentation r.state uenv).success = false ∧
    (uploadSegmentation r.state uenv).requests = [] ∧
    (uploadSegmentation r.state uenv).events =
      [.error "No file ID available. Please run inference first."] := by
  refine ⟨?_, ?_, ?_, ?_, ?_, ?_, ?_, ?_⟩ <;>
    simp [startSegmentation, uploadSegmentation, h, hs, hh, pyTruthy,
      countFinished, countError, Event.isFinished, Event.isError]

theorem startSegmentation_missing_header_witness :
    let r := startSegmentation { ApiLogicState.init with apiBaseUrl := "http://host" } "vol"
      ⟨.ok (), .ok ⟨200, [], "B", "B"⟩, .ok (), .ok (), .ok ()⟩
    r.state.outputFile = some (Response.mk 200 [] "B" "B").content ∧
    countFinished r.events = 1 ∧
    Event.progress "Warning: No file ID received from API" ∈ r.events ∧
    countError r.events = 0 ∧
    r.state.currentFileId = none ∧
    (uploadSegmentation r.state ⟨.ok (), .ok ⟨200, [], "", ""⟩, .ok ()⟩).success = false ∧
    (uploadSegmentation r.state ⟨.ok (), .ok ⟨200, [], "", ""⟩, .ok ()⟩).requests = [] ∧
    (uploadSegmentation r.state ⟨.ok (), .ok ⟨200, [], "", ""⟩, .ok ()⟩).events =
      [.error "No file ID available. Please run inference first."] :=
  startSegmentation_missing_header { ApiLogicState.init with apiBaseUrl := "http://host" }
    "vol" ⟨200, [], "B", "B"⟩ ⟨.ok (), .ok ⟨200, [], "", ""⟩, .ok ()⟩
    (by decide) rfl rfl

/-- C9: a user-initiated stop with a finished-signal delivery pending
(`onStopClicked` with `pendingFinished = true`) suppresses the normal
finished reaction: while the `isStopping` guard is set,
`onInferenceFinished` neither invokes `loadSegmentation` nor shows the
success dialog, and the widget ends with the apply button visible, the
stop button hidden, the guard cleared, and no new success dialog —
whatever the load outcome would have been. -/
theorem stop_suppresses_finished (w : WidgetState) (lo : Except String Unit) :
    (onInferenceFinished { w with isStopping := true } lo).2.1 = false ∧
    (onInferenceFinished { w with isStopping := true } lo).2.2 = false ∧
    (onStopClicked w true lo).2.1 = false ∧
    (onStopClicked w true lo).2.2 = false ∧
    (onStopClicked w true lo).1.applyVisible = true ∧
    (onStopClicked w true lo).1.stopVisible = false ∧
    (onStopClicked w true lo).1.isStopping = false ∧
    (onStopClicked w true lo).1.infoDialogs = w.infoDialogs := by
  simp [onStopClicked, onInferenceFinished, setApplyVisible]
